import Mathlib

/-!
Verification of `wgpucheck` (src/src/main.rs), a diagnostic tool that
queries the default GPU adapter and renders its identity and limits in
one of three formats (table, JSON, markdown).

The Rust source is shallowly embedded below: machine integers (`u32`,
`u64`) become `Nat` with explicit bounds where overflow or width
matters, the `println!`-based renderers become pure `String`-producing
functions (terminal color codes, a cosmetic layer supplied by the
`colored` crate, are stripped, as the spec's purity property sanctions),
and `serde_json` serialization becomes an explicit JSON syntax tree.
-/

namespace Wgpucheck

/-! ## Byte-size formatter (`impl PrettyFormat for u64` / `u32`)

The Rust code computes `n as f64 / D as f64` and renders it with
`format!("{:.1} ..")`.  We model this pipeline exactly over `Nat`:

* `u64 -> f64` conversion rounds to nearest, ties to even, at 53
  significant bits (`natToF64` returns the exact integer value of the
  resulting double; every `u64` converts to an integral double).
* the division by a power of two `D ∈ {2^10, 2^20, 2^30, 2^40}` is then
  exact in `f64` (the significand is unchanged, only the exponent
  moves), so the quotient is exactly `natToF64 n / D` as a rational;
* Rust's float `Display` with precision renders the nearest 1-decimal
  number to the exact binary value, ties to even
  (`roundNearestEven (10 * natToF64 n) D` gives the value in tenths).
-/

/-- Nearest integer to `num / den`, ties to even. -/
def roundNearestEven (num den : Nat) : Nat :=
  let q := num / den
  let r := num % den
  if 2 * r < den then q
  else if den < 2 * r then q + 1
  else if q % 2 = 0 then q else q + 1

/-- Exact integer value of `n as f64` for a `u64` value `n`:
round to 53 significant bits, nearest, ties to even. -/
def natToF64 (n : Nat) : Nat :=
  if n < 2 ^ 53 then n
  else
    let k := n.log2 - 52
    roundNearestEven n (2 ^ k) * 2 ^ k

/-- Rust's `format!("{:.1}", n as f64 / den as f64)` for `den` a power
of two: one decimal digit, rounding the exact double value to the
nearest tenth, ties to even. -/
def fmtOneDecimal (n den : Nat) : String :=
  let t := roundNearestEven (10 * natToF64 n) den
  Nat.repr (t / 10) ++ "." ++ Nat.repr (t % 10)

def KB : Nat := 1024
def MB : Nat := KB * 1024
def GB : Nat := MB * 1024
def TB : Nat := GB * 1024

/-- Rust's `impl PrettyFormat for u64`: thresholds checked largest-first. -/
def prettyFormatU64 (n : Nat) : String :=
  if TB ≤ n then fmtOneDecimal n TB ++ " TB"
  else if GB ≤ n then fmtOneDecimal n GB ++ " GB"
  else if MB ≤ n then fmtOneDecimal n MB ++ " MB"
  else if KB ≤ n then fmtOneDecimal n KB ++ " KB"
  else Nat.repr n ++ " B"

/-- Rust's `impl PrettyFormat for u32`: widens to `u64` and delegates
(widening preserves the numeric value, so on `Nat` it is the `u64`
formatter itself). -/
def prettyFormatU32 (n : Nat) : String :=
  prettyFormatU64 n

/-! ## Vendor-code resolver (`vendor_to_string`) -/

/-- One uppercase hexadecimal digit (`0`-`9`, `A`-`F`). -/
def hexDigit (d : Nat) : Char :=
  if d < 10 then Char.ofNat (48 + d) else Char.ofNat (55 + d)

/-- Digits of `n` in base 16, most significant first, uppercase;
models Rust's `format!("{:X}", n)` (no leading zeros, `0` for zero). -/
def hexChars (n : Nat) : List Char :=
  if h : n < 16 then [hexDigit n]
  else hexChars (n / 16) ++ [hexDigit (n % 16)]
  termination_by n
  decreasing_by
    exact Nat.div_lt_self (Nat.pos_of_ne_zero fun hz => h (hz ▸ by norm_num)) (by norm_num)

/-- Rust's `format!("{:X}", n)` as a string. -/
def toHexUpper (n : Nat) : String :=
  ⟨hexChars n⟩

/-- The resolver `vendor_to_string`: PCI vendor ID to display name, with an
`Unknown (0x{:X})` fallback. -/
def vendor_to_string (vendor_id : Nat) : String :=
  if vendor_id = 0x1002 then "AMD"
  else if vendor_id = 0x10DE then "NVIDIA"
  else if vendor_id = 0x8086 then "Intel"
  else if vendor_id = 0x13B5 then "ARM"
  else if vendor_id = 0x5143 then "Qualcomm"
  else if vendor_id = 0x1010 then "ImgTec"
  else "Unknown (0x" ++ toHexUpper vendor_id ++ ")"

/-! ## Input records (external collaborator data, spec section 3)

`wgpu::AdapterInfo` and `wgpu::Limits` are records supplied by the
external graphics layer; the program only reads them.  `Limits` is
modelled with the fields the program reads (all `u32`-valued in the
source); `AdapterInfo` with its full field set. -/

/-- The underlying graphics API (`wgpu::Backend`). -/
inductive Backend where
  | vulkan | metal | dx12 | gl | browserWebGpu | empty
  deriving DecidableEq

/-- Rust's `format!("{:?}", backend)` on the `Backend` enum. -/
def backendDebug : Backend → String
  | .vulkan => "Vulkan"
  | .metal => "Metal"
  | .dx12 => "Dx12"
  | .gl => "Gl"
  | .browserWebGpu => "BrowserWebGpu"
  | .empty => "Empty"

/-- The external `wgpu::DeviceType` enum. -/
inductive DeviceType where
  | other | integratedGpu | discreteGpu | virtualGpu | cpu
  deriving DecidableEq

/-- Serde's serialization of the fieldless `DeviceType` enum: the
variant name as a string. -/
def deviceTypeSerde : DeviceType → String
  | .other => "Other"
  | .integratedGpu => "IntegratedGpu"
  | .discreteGpu => "DiscreteGpu"
  | .virtualGpu => "VirtualGpu"
  | .cpu => "Cpu"

/-- The external `wgpu::AdapterInfo` record: adapter identity. -/
structure AdapterInfo where
  name : String
  vendor : Nat
  device : Nat
  device_type : DeviceType
  driver : String
  driver_info : String
  backend : Backend

/-- The external `wgpu::Limits` record, restricted to the fields `main.rs` reads
(each a `u32` in the source). -/
structure Limits where
  max_texture_dimension_1d : Nat
  max_texture_dimension_2d : Nat
  max_texture_dimension_3d : Nat
  max_texture_array_layers : Nat
  max_bind_groups : Nat
  max_bindings_per_bind_group : Nat
  max_dynamic_uniform_buffers_per_pipeline_layout : Nat
  max_dynamic_storage_buffers_per_pipeline_layout : Nat
  max_sampled_textures_per_shader_stage : Nat
  max_samplers_per_shader_stage : Nat
  max_storage_buffers_per_shader_stage : Nat
  max_storage_textures_per_shader_stage : Nat
  max_uniform_buffers_per_shader_stage : Nat
  max_uniform_buffer_binding_size : Nat
  max_storage_buffer_binding_size : Nat
  min_uniform_buffer_offset_alignment : Nat
  min_storage_buffer_offset_alignment : Nat
  max_vertex_buffers : Nat
  max_vertex_attributes : Nat
  max_vertex_buffer_array_stride : Nat
  max_compute_workgroup_size_x : Nat
  max_compute_workgroup_size_y : Nat
  max_compute_workgroup_size_z : Nat
  max_compute_invocations_per_workgroup : Nat
  max_compute_workgroup_storage_size : Nat
  max_compute_workgroups_per_dimension : Nat
  max_push_constant_size : Nat
  max_inter_stage_shader_components : Nat

/-! ## Table renderer (`print_table_output`)

The source prints a title, then for each of eight sections a bold
header and a sequence of `print_row` lines.  Colors (`bold`, `cyan`,
`yellow`, `underline`) are presentational and stripped here.  The
key/value rows are gathered, in source order, in `tableSections`; the
rendered string concatenates exactly the `println!` outputs. -/

/-- Pad `s` on the right with spaces to width `w`
(Rust's `{: <w$}` for plain text). -/
def padRight (s : String) (w : Nat) : String :=
  s ++ ⟨List.replicate (w - s.length) ' '⟩

/-- The constant `MAX_KEY_LEN` from the source. -/
def MAX_KEY_LEN : Nat := 30

/-- The helper `print_row`: one table line, key padded to `MAX_KEY_LEN`. -/
def print_row (key value : String) : String :=
  padRight key MAX_KEY_LEN ++ " " ++ value ++ "\n"

/-- The table renderer's sections: header and key/value rows, in the
order the source's `println!`/`print_row` calls emit them. -/
def tableSections (info : AdapterInfo) (limits : Limits) :
    List (String × List (String × String)) :=
  [("Adapter Information",
    [("Name:", info.name),
     ("Backend:", backendDebug info.backend),
     ("Vendor:", vendor_to_string info.vendor),
     ("Device ID:", Nat.repr info.device),
     ("Driver:", info.driver),
     ("Driver Info:", info.driver_info)]),
   ("Texture Limits",
    [("Max 1D Texture Size:", Nat.repr limits.max_texture_dimension_1d),
     ("Max 2D Texture Size:", Nat.repr limits.max_texture_dimension_2d),
     ("Max 3D Texture Size:", Nat.repr limits.max_texture_dimension_3d),
     ("Max Array Layers:", Nat.repr limits.max_texture_array_layers)]),
   ("Binding Limits",
    [("Max Bind Groups:", Nat.repr limits.max_bind_groups),
     ("Max Bindings/Group:", Nat.repr limits.max_bindings_per_bind_group),
     ("Max Dynamic Uniform Buffers:",
      Nat.repr limits.max_dynamic_uniform_buffers_per_pipeline_layout),
     ("Max Dynamic Storage Buffers:",
      Nat.repr limits.max_dynamic_storage_buffers_per_pipeline_layout)]),
   ("Resource Limits",
    [("Max Sampled Textures:",
      Nat.repr limits.max_sampled_textures_per_shader_stage),
     ("Max Samplers:", Nat.repr limits.max_samplers_per_shader_stage),
     ("Max Storage Buffers:",
      Nat.repr limits.max_storage_buffers_per_shader_stage),
     ("Max Storage Textures:",
      Nat.repr limits.max_storage_textures_per_shader_stage),
     ("Max Uniform Buffers:",
      Nat.repr limits.max_uniform_buffers_per_shader_stage)]),
   ("Buffer Limits",
    [("Max Uniform Buffer Size:",
      prettyFormatU32 limits.max_uniform_buffer_binding_size),
     ("Max Storage Buffer Size:",
      prettyFormatU32 limits.max_storage_buffer_binding_size),
     ("Min Uniform Alignment:",
      Nat.repr limits.min_uniform_buffer_offset_alignment ++ " bytes"),
     ("Min Storage Alignment:",
      Nat.repr limits.min_storage_buffer_offset_alignment ++ " bytes")]),
   ("Vertex Limits",
    [("Max Vertex Buffers:", Nat.repr limits.max_vertex_buffers),
     ("Max Vertex Attributes:", Nat.repr limits.max_vertex_attributes),
     ("Max Vertex Stride:",
      Nat.repr limits.max_vertex_buffer_array_stride ++ " bytes")]),
   ("Compute Limits",
    [("Max Workgroup Size X:", Nat.repr limits.max_compute_workgroup_size_x),
     ("Max Workgroup Size Y:", Nat.repr limits.max_compute_workgroup_size_y),
     ("Max Workgroup Size Z:", Nat.repr limits.max_compute_workgroup_size_z),
     ("Max Workgroup Invocations:",
      Nat.repr limits.max_compute_invocations_per_workgroup),
     ("Max Workgroup Storage:",
      prettyFormatU32 limits.max_compute_workgroup_storage_size),
     ("Max Workgroups/Dimension:",
      Nat.repr limits.max_compute_workgroups_per_dimension)]),
   ("Miscellaneous Limits",
    [("Max Push Constant Size:",
      prettyFormatU32 limits.max_push_constant_size),
     ("Max Inter-Stage Components:",
      Nat.repr limits.max_inter_stage_shader_components)])]

/-- The renderer `print_table_output`: the full standard-output text of the table
renderer (color codes stripped).  The title line comes first; each
section contributes a blank line, its header line, and its rows. -/
def print_table_output (info : AdapterInfo) (limits : Limits) : String :=
  "WGPU Adapter Info & Device Limits\n" ++
  String.join ((tableSections info limits).map fun s =>
    "\n" ++ s.1 ++ "\n" ++ String.join (s.2.map fun r => print_row r.1 r.2))

/-! ## Markdown renderer (`print_markdown_output`) -/

/-- The adapter-identity rows of the markdown renderer, in source
order (keys without the table renderer's trailing colon). -/
def markdownAdapterRows (info : AdapterInfo) : List (String × String) :=
  [("Name", info.name),
   ("Backend", backendDebug info.backend),
   ("Vendor", vendor_to_string info.vendor),
   ("Device ID", Nat.repr info.device),
   ("Driver", info.driver),
   ("Driver Info", info.driver_info)]

/-- One markdown row: `| key | `value` |`. -/
def markdownRow (key value : String) : String :=
  "| " ++ key ++ " | `" ++ value ++ "` |\n"

/-- The helper `print_section`: a level-3 heading, the table header, the rows,
and a trailing blank line. -/
def print_section (title : String) (rows : List (String × String)) : String :=
  "### " ++ title ++ "\n\n" ++
  "| Key | Value |\n" ++
  "|-----|-------|\n" ++
  String.join (rows.map fun r => markdownRow r.1 r.2) ++
  "\n"

/-- The markdown renderer's limit sections, mirroring the seven
`print_section` calls of the source. -/
def markdownSections (limits : Limits) :
    List (String × List (String × String)) :=
  [("Texture Limits",
    [("Max 1D Texture Size", Nat.repr limits.max_texture_dimension_1d),
     ("Max 2D Texture Size", Nat.repr limits.max_texture_dimension_2d),
     ("Max 3D Texture Size", Nat.repr limits.max_texture_dimension_3d),
     ("Max Array Layers", Nat.repr limits.max_texture_array_layers)]),
   ("Binding Limits",
    [("Max Bind Groups", Nat.repr limits.max_bind_groups),
     ("Max Bindings/Group", Nat.repr limits.max_bindings_per_bind_group),
     ("Max Dynamic Uniform Buffers",
      Nat.repr limits.max_dynamic_uniform_buffers_per_pipeline_layout),
     ("Max Dynamic Storage Buffers",
      Nat.repr limits.max_dynamic_storage_buffers_per_pipeline_layout)]),
   ("Resource Limits",
    [("Max Sampled Textures",
      Nat.repr limits.max_sampled_textures_per_shader_stage),
     ("Max Samplers", Nat.repr limits.max_samplers_per_shader_stage),
     ("Max Storage Buffers",
      Nat.repr limits.max_storage_buffers_per_shader_stage),
     ("Max Storage Textures",
      Nat.repr limits.max_storage_textures_per_shader_stage),
     ("Max Uniform Buffers",
      Nat.repr limits.max_uniform_buffers_per_shader_stage)]),
   ("Buffer Limits",
    [("Max Uniform Buffer Size",
      prettyFormatU32 limits.max_uniform_buffer_binding_size),
     ("Max Storage Buffer Size",
      prettyFormatU32 limits.max_storage_buffer_binding_size),
     ("Min Uniform Alignment",
      Nat.repr limits.min_uniform_buffer_offset_alignment ++ " bytes"),
     ("Min Storage Alignment",
      Nat.repr limits.min_storage_buffer_offset_alignment ++ " bytes")]),
   ("Vertex Limits",
    [("Max Vertex Buffers", Nat.repr limits.max_vertex_buffers),
     ("Max Vertex Attributes", Nat.repr limits.max_vertex_attributes),
     ("Max Vertex Stride",
      Nat.repr limits.max_vertex_buffer_array_stride ++ " bytes")]),
   ("Compute Limits",
    [("Max Workgroup Size X", Nat.repr limits.max_compute_workgroup_size_x),
     ("Max Workgroup Size Y", Nat.repr limits.max_compute_workgroup_size_y),
     ("Max Workgroup Size Z", Nat.repr limits.max_compute_workgroup_size_z),
     ("Max Workgroup Invocations",
      Nat.repr limits.max_compute_invocations_per_workgroup),
     ("Max Workgroup Storage",
      prettyFormatU32 limits.max_compute_workgroup_storage_size),
     ("Max Workgroups/Dimension",
      Nat.repr limits.max_compute_workgroups_per_dimension)]),
   ("Miscellaneous Limits",
    [("Max Push Constant Size",
      Nat.repr limits.max_push_constant_size ++ " bytes"),
     ("Max Inter-Stage Components",
      Nat.repr limits.max_inter_stage_shader_components)])]

/-- The renderer `print_markdown_output`: the full standard-output text of the
markdown renderer. -/
def print_markdown_output (info : AdapterInfo) (limits : Limits) : String :=
  "## WGPU Adapter Information\n\n" ++
  "| Key | Value |\n" ++
  "|-----|-------|\n" ++
  String.join ((markdownAdapterRows info).map fun r => markdownRow r.1 r.2) ++
  "## WGPU Device Limits\n\n" ++
  String.join ((markdownSections limits).map fun s => print_section s.1 s.2)

/-! ## JSON renderer

`main` builds a `GpuReport { adapter_info, limits, notes }` (with
`#[serde(skip_serializing_if = "Option::is_none")]` on `notes`) and
prints `serde_json::to_string_pretty` of it.  Serde's derived
serialization emits one member per struct field, in declaration
order, skipping `notes` when it is `None`; we model the produced JSON
value as a syntax tree. -/

/-- JSON values (the fragment this program produces). -/
inductive Json where
  | str : String → Json
  | num : Nat → Json
  | nul : Json
  | obj : List (String × Json) → Json

/-- Member list of a JSON object (empty for non-objects). -/
def Json.members : Json → List (String × Json)
  | .obj ms => ms
  | _ => []

/-- Member keys of a JSON object. -/
def Json.keys (j : Json) : List String :=
  j.members.map Prod.fst

/-- Serde serialization of `wgpu::AdapterInfo`: every field under its
natural name, in declaration order. -/
def adapterInfoToJson (info : AdapterInfo) : Json :=
  .obj [("name", .str info.name),
        ("vendor", .num info.vendor),
        ("device", .num info.device),
        ("device_type", .str (deviceTypeSerde info.device_type)),
        ("driver", .str info.driver),
        ("driver_info", .str info.driver_info),
        ("backend", .str (backendDebug info.backend))]

/-- Serde serialization of `wgpu::Limits` (the fields the program
reads): every field under its natural name, as a raw number. -/
def limitsToJson (l : Limits) : Json :=
  .obj [("max_texture_dimension_1d", .num l.max_texture_dimension_1d),
        ("max_texture_dimension_2d", .num l.max_texture_dimension_2d),
        ("max_texture_dimension_3d", .num l.max_texture_dimension_3d),
        ("max_texture_array_layers", .num l.max_texture_array_layers),
        ("max_bind_groups", .num l.max_bind_groups),
        ("max_bindings_per_bind_group", .num l.max_bindings_per_bind_group),
        ("max_dynamic_uniform_buffers_per_pipeline_layout",
         .num l.max_dynamic_uniform_buffers_per_pipeline_layout),
        ("max_dynamic_storage_buffers_per_pipeline_layout",
         .num l.max_dynamic_storage_buffers_per_pipeline_layout),
        ("max_sampled_textures_per_shader_stage",
         .num l.max_sampled_textures_per_shader_stage),
        ("max_samplers_per_shader_stage", .num l.max_samplers_per_shader_stage),
        ("max_storage_buffers_per_shader_stage",
         .num l.max_storage_buffers_per_shader_stage),
        ("max_storage_textures_per_shader_stage",
         .num l.max_storage_textures_per_shader_stage),
        ("max_uniform_buffers_per_shader_stage",
         .num l.max_uniform_buffers_per_shader_stage),
        ("max_uniform_buffer_binding_size",
         .num l.max_uniform_buffer_binding_size),
        ("max_storage_buffer_binding_size",
         .num l.max_storage_buffer_binding_size),
        ("min_uniform_buffer_offset_alignment",
         .num l.min_uniform_buffer_offset_alignment),
        ("min_storage_buffer_offset_alignment",
         .num l.min_storage_buffer_offset_alignment),
        ("max_vertex_buffers", .num l.max_vertex_buffers),
        ("max_vertex_attributes", .num l.max_vertex_attributes),
        ("max_vertex_buffer_array_stride",
         .num l.max_vertex_buffer_array_stride),
        ("max_compute_workgroup_size_x", .num l.max_compute_workgroup_size_x),
        ("max_compute_workgroup_size_y", .num l.max_compute_workgroup_size_y),
        ("max_compute_workgroup_size_z", .num l.max_compute_workgroup_size_z),
        ("max_compute_invocations_per_workgroup",
         .num l.max_compute_invocations_per_workgroup),
        ("max_compute_workgroup_storage_size",
         .num l.max_compute_workgroup_storage_size),
        ("max_compute_workgroups_per_dimension",
         .num l.max_compute_workgroups_per_dimension),
        ("max_push_constant_size", .num l.max_push_constant_size),
        ("max_inter_stage_shader_components",
         .num l.max_inter_stage_shader_components)]

/-- Serde serialization of `GpuReport`: `adapter_info`, `limits`, and
`notes` in declaration order, with `notes` skipped entirely when
`None` (`skip_serializing_if = "Option::is_none"`). -/
def gpuReportToJson (info : AdapterInfo) (limits : Limits)
    (notes : Option String) : Json :=
  .obj ([("adapter_info", adapterInfoToJson info),
         ("limits", limitsToJson limits)] ++
        (match notes with
         | none => []
         | some s => [("notes", .str s)]))

mutual

/-- A JSON serializer for the tree (models `serde_json`'s output
textually; the exact whitespace of `to_string_pretty` is not load
bearing for any claim, so members are rendered on one line). -/
def Json.render : Json → String
  | .str s => "\x22" ++ s ++ "\x22"
  | .num n => Nat.repr n
  | .nul => "null"
  | .obj ms => "\x7b" ++ Json.renderMembers ms ++ "\x7d"

/-- Renders the comma-separated member list of a JSON object. -/
def Json.renderMembers : List (String × Json) → String
  | [] => ""
  | (k, v) :: rest =>
      "\x22" ++ k ++ "\x22: " ++ v.render ++
      (if rest.isEmpty then "" else ", ") ++ Json.renderMembers rest

end

/-! ## `main` (control flow and exit behaviour)

`main` parses the output format, requests an adapter exactly once
(one `request_adapter` call behind one `block_on`, no loop and no
retry), and on failure propagates the error out of `main`, which
makes the process print the error and exit non-zero before any report
output; on success it prints exactly one report and returns `Ok(())`
(exit code 0).  Acquisition is modelled as its result. -/

/-- The `--output` CLI choice. -/
inductive OutputFormat where
  | table | json | markdown
  deriving DecidableEq

/-- Observable outcome of one program run: how many times adapter
acquisition was attempted, the exit code, what was printed to standard
output, and the error message printed on failure (if any). -/
structure RunResult where
  attempts : Nat
  exitCode : Nat
  stdout : String
  errMsg : Option String

/-- The report text `main` prints for a given format. -/
def renderReport (fmt : OutputFormat) (info : AdapterInfo)
    (limits : Limits) : String :=
  match fmt with
  | .table => print_table_output info limits
  | .json =>
      (gpuReportToJson info limits none).render ++ "\n"
  | .markdown => print_markdown_output info limits

/-- The program `main`, as a function of the single acquisition outcome: on
`error e` the program prints nothing to standard output, reports the
error, and exits with code 1; on `ok` it prints one report and exits
with code 0.  `attempts` records the single acquisition call. -/
def runMain (fmt : OutputFormat)
    (acq : Except String (AdapterInfo × Limits)) : RunResult :=
  match acq with
  | .error e =>
      { attempts := 1, exitCode := 1, stdout := "",
        errMsg := some ("Error: " ++ e) }
  | .ok (info, limits) =>
      { attempts := 1, exitCode := 0,
        stdout := renderReport fmt info limits, errMsg := none }

/-! ## Lookup and counting helpers for the claims -/

/-- First value bound to `key` in an association list. -/
def rowValue {α : Type} : List (String × α) → String → Option α
  | [], _ => none
  | (k, v) :: rest, key => if k = key then some v else rowValue rest key

/-- Number of occurrences of `key` in a list of strings. -/
def countKey : List String → String → Nat
  | [], _ => 0
  | k :: rest, key => (if k = key then 1 else 0) + countKey rest key

/-- All row keys of a sectioned key/value listing, in order. -/
def sectionKeys (ss : List (String × List (String × String))) : List String :=
  (ss.map fun s => s.2.map Prod.fst).flatten

/-- All rows of a sectioned key/value listing, in order. -/
def sectionRows (ss : List (String × List (String × String))) :
    List (String × String) :=
  (ss.map Prod.snd).flatten

/-- Numeric value of one uppercase hexadecimal digit character. -/
def hexDigitVal (c : Char) : Nat :=
  if 65 ≤ c.toNat then c.toNat - 55 else c.toNat - 48

/-- Numeric value of a most-significant-first base-16 digit string. -/
def hexVal (cs : List Char) : Nat :=
  cs.foldl (fun a c => 16 * a + hexDigitVal c) 0

/-- The uppercase hexadecimal alphabet. -/
def hexAlphabet : List Char :=
  ['0', '1', '2', '3', '4', '5', '6', '7', '8', '9',
   'A', 'B', 'C', 'D', 'E', 'F']

/-! ## The spec section-6 key table -/

/-- The field labels of the spec's section-6 table. -/
def spec6Keys : List String :=
  ["Name", "Backend", "Vendor", "Device ID", "Driver", "Driver Info",
   "Max 1D Texture Size", "Max 2D Texture Size", "Max 3D Texture Size",
   "Max Array Layers",
   "Max Bind Groups", "Max Bindings/Group",
   "Max Dynamic Uniform Buffers", "Max Dynamic Storage Buffers",
   "Max Sampled Textures", "Max Samplers", "Max Storage Buffers",
   "Max Storage Textures", "Max Uniform Buffers",
   "Max Uniform Buffer Size", "Max Storage Buffer Size",
   "Min Uniform Alignment", "Min Storage Alignment",
   "Max Vertex Buffers", "Max Vertex Attributes", "Max Vertex Stride",
   "Max Workgroup Size X", "Max Workgroup Size Y", "Max Workgroup Size Z",
   "Max Workgroup Invocations", "Max Workgroup Storage",
   "Max Workgroups/Dimension",
   "Max Push Constant Size", "Max Inter-Stage Components"]

/-- The serialized JSON member name carrying the datum labelled by a
section-6 key (the JSON renderer uses the records' natural field
names, not the display labels). -/
def jsonKeyFor : String → String
  | "Name" => "name"
  | "Backend" => "backend"
  | "Vendor" => "vendor"
  | "Device ID" => "device"
  | "Driver" => "driver"
  | "Driver Info" => "driver_info"
  | "Max 1D Texture Size" => "max_texture_dimension_1d"
  | "Max 2D Texture Size" => "max_texture_dimension_2d"
  | "Max 3D Texture Size" => "max_texture_dimension_3d"
  | "Max Array Layers" => "max_texture_array_layers"
  | "Max Bind Groups" => "max_bind_groups"
  | "Max Bindings/Group" => "max_bindings_per_bind_group"
  | "Max Dynamic Uniform Buffers" =>
      "max_dynamic_uniform_buffers_per_pipeline_layout"
  | "Max Dynamic Storage Buffers" =>
      "max_dynamic_storage_buffers_per_pipeline_layout"
  | "Max Sampled Textures" => "max_sampled_textures_per_shader_stage"
  | "Max Samplers" => "max_samplers_per_shader_stage"
  | "Max Storage Buffers" => "max_storage_buffers_per_shader_stage"
  | "Max Storage Textures" => "max_storage_textures_per_shader_stage"
  | "Max Uniform Buffers" => "max_uniform_buffers_per_shader_stage"
  | "Max Uniform Buffer Size" => "max_uniform_buffer_binding_size"
  | "Max Storage Buffer Size" => "max_storage_buffer_binding_size"
  | "Min Uniform Alignment" => "min_uniform_buffer_offset_alignment"
  | "Min Storage Alignment" => "min_storage_buffer_offset_alignment"
  | "Max Vertex Buffers" => "max_vertex_buffers"
  | "Max Vertex Attributes" => "max_vertex_attributes"
  | "Max Vertex Stride" => "max_vertex_buffer_array_stride"
  | "Max Workgroup Size X" => "max_compute_workgroup_size_x"
  | "Max Workgroup Size Y" => "max_compute_workgroup_size_y"
  | "Max Workgroup Size Z" => "max_compute_workgroup_size_z"
  | "Max Workgroup Invocations" => "max_compute_invocations_per_workgroup"
  | "Max Workgroup Storage" => "max_compute_workgroup_storage_size"
  | "Max Workgroups/Dimension" => "max_compute_workgroups_per_dimension"
  | "Max Push Constant Size" => "max_push_constant_size"
  | "Max Inter-Stage Components" => "max_inter_stage_shader_components"
  | _ => ""

/-- All row keys of the table renderer's output, in order. -/
def tableKeys (info : AdapterInfo) (L : Limits) : List String :=
  sectionKeys (tableSections info L)

/-- All row keys of the markdown renderer's output, in order. -/
def markdownKeys (info : AdapterInfo) (L : Limits) : List String :=
  (markdownAdapterRows info).map Prod.fst ++ sectionKeys (markdownSections L)

/-- All member names appearing in the JSON renderer's `adapter_info`
and `limits` objects, in order. -/
def jsonLeafKeys (info : AdapterInfo) (L : Limits) : List String :=
  (adapterInfoToJson info).keys ++ (limitsToJson L).keys

/-! ## Concrete records (used by witnesses)

The mock adapter of spec section 8's end-to-end scenario. -/

def mockInfo : AdapterInfo :=
  { name := "Mock GPU", vendor := 0x1002, device := 1,
    device_type := .discreteGpu, driver := "mock", driver_info := "v1",
    backend := .vulkan }

def mockLimits : Limits :=
  { max_texture_dimension_1d := 8192
    max_texture_dimension_2d := 8192
    max_texture_dimension_3d := 2048
    max_texture_array_layers := 256
    max_bind_groups := 4
    max_bindings_per_bind_group := 1000
    max_dynamic_uniform_buffers_per_pipeline_layout := 8
    max_dynamic_storage_buffers_per_pipeline_layout := 4
    max_sampled_textures_per_shader_stage := 16
    max_samplers_per_shader_stage := 16
    max_storage_buffers_per_shader_stage := 8
    max_storage_textures_per_shader_stage := 4
    max_uniform_buffers_per_shader_stage := 12
    max_uniform_buffer_binding_size := 65536
    max_storage_buffer_binding_size := 134217728
    min_uniform_buffer_offset_alignment := 256
    min_storage_buffer_offset_alignment := 256
    max_vertex_buffers := 8
    max_vertex_attributes := 16
    max_vertex_buffer_array_stride := 2048
    max_compute_workgroup_size_x := 256
    max_compute_workgroup_size_y := 256
    max_compute_workgroup_size_z := 64
    max_compute_invocations_per_workgroup := 256
    max_compute_workgroup_storage_size := 16384
    max_compute_workgroups_per_dimension := 65535
    max_push_constant_size := 128
    max_inter_stage_shader_components := 60 }

/-! ## String-suffix machinery

The formatter claims need that strings built with different literal
suffixes (`" TB"`, `" GB"`, `" bytes"`, ...) are distinct whatever the
variable prefix: the last two characters decide it. -/

lemma rev_take_two_append (l s : List Char) (h : 2 ≤ s.length) :
    (l ++ s).reverse.take 2 = s.reverse.take 2 := by
  rw [List.reverse_append, List.take_append_of_le_length (by simpa using h)]

lemma append_ne_of_suffix_ne (a b u v : String)
    (h2u : 2 ≤ u.data.length) (h2v : 2 ≤ v.data.length)
    (hne : u.data.reverse.take 2 ≠ v.data.reverse.take 2) :
    a ++ u ≠ b ++ v := by
  intro h
  apply hne
  have hd : (a ++ u).data = (b ++ v).data := congrArg String.data h
  rw [String.data_append, String.data_append] at hd
  calc u.data.reverse.take 2
      = (a.data ++ u.data).reverse.take 2 := (rev_take_two_append _ _ h2u).symm
    _ = (b.data ++ v.data).reverse.take 2 := by rw [hd]
    _ = v.data.reverse.take 2 := rev_take_two_append _ _ h2v

/-! ## Facts about the hexadecimal rendering -/

lemma hexDigit_val_of_lt {d : Nat} (h : d < 16) :
    hexDigitVal (hexDigit d) = d := by
  revert h
  revert d
  decide

lemma hexDigit_mem_alphabet {d : Nat} (h : d < 16) :
    hexDigit d ∈ hexAlphabet := by
  revert h
  revert d
  decide

lemma hexDigit_ne_zero_char {d : Nat} (h : d < 16) (hd : d ≠ 0) :
    hexDigit d ≠ '0' := by
  revert hd
  revert h
  revert d
  decide

lemma hexChars_ne_nil (n : Nat) : hexChars n ≠ [] := by
  rw [hexChars]
  split
  · simp
  · simp

lemma hexVal_aux (cs : List Char) (a : Nat) :
    cs.foldl (fun a c => 16 * a + hexDigitVal c) a =
      a * 16 ^ cs.length + hexVal cs := by
  induction cs generalizing a with
  | nil => simp [hexVal]
  | cons c rest ih =>
      simp only [List.foldl_cons, hexVal, List.length_cons]
      rw [ih, ih (16 * 0 + hexDigitVal c)]
      ring

/-- The hexadecimal rendering is faithful: reading the digits of
`hexChars n` back in base 16 gives `n`. -/
lemma hexVal_hexChars (n : Nat) : hexVal (hexChars n) = n := by
  induction n using Nat.strong_induction_on with
  | _ n ih =>
    rw [hexChars]
    split
    · next h =>
        simp [hexVal, hexDigit_val_of_lt h]
    · next h =>
        have h16 : 16 ≤ n := Nat.le_of_not_lt h
        have hdiv : n / 16 < n :=
          Nat.div_lt_self (Nat.lt_of_lt_of_le (by norm_num) h16) (by norm_num)
        simp only [hexVal, List.foldl_append, List.foldl_cons, List.foldl_nil]
        have := hexVal_aux (hexChars (n / 16)) 0
        rw [show (hexChars (n / 16)).foldl
              (fun a c => 16 * a + hexDigitVal c) 0 = hexVal (hexChars (n / 16))
            from rfl, ih (n / 16) hdiv,
            hexDigit_val_of_lt (Nat.mod_lt _ (by norm_num))]
        omega

/-- Every character of the hexadecimal rendering is an uppercase
hexadecimal digit. -/
lemma hexChars_mem_alphabet (n : Nat) :
    ∀ c ∈ hexChars n, c ∈ hexAlphabet := by
  induction n using Nat.strong_induction_on with
  | _ n ih =>
    rw [hexChars]
    split
    · next h =>
        intro c hc
        simp only [List.mem_singleton] at hc
        exact hc ▸ hexDigit_mem_alphabet h
    · next h =>
        have h16 : 16 ≤ n := Nat.le_of_not_lt h
        have hdiv : n / 16 < n :=
          Nat.div_lt_self (Nat.lt_of_lt_of_le (by norm_num) h16) (by norm_num)
        intro c hc
        rcases List.mem_append.mp hc with hc | hc
        · exact ih (n / 16) hdiv c hc
        · simp only [List.mem_singleton] at hc
          exact hc ▸ hexDigit_mem_alphabet (Nat.mod_lt _ (by norm_num))

/-- The hexadecimal rendering of a nonzero number has no leading
zero. -/
lemma hexChars_head_ne_zero (n : Nat) (hn : n ≠ 0) :
    (hexChars n).head? ≠ some '0' := by
  induction n using Nat.strong_induction_on with
  | _ n ih =>
    rw [hexChars]
    split
    · next h =>
        simpa using hexDigit_ne_zero_char h hn
    · next h =>
        have h16 : 16 ≤ n := Nat.le_of_not_lt h
        have hdiv : n / 16 < n :=
          Nat.div_lt_self (Nat.lt_of_lt_of_le (by norm_num) h16) (by norm_num)
        have hq : n / 16 ≠ 0 := by
          intro hz
          exact absurd (Nat.div_eq_zero_iff (by norm_num) |>.mp hz)
            (Nat.not_lt.mpr h16)
        rw [List.head?_append_of_ne_nil _ (hexChars_ne_nil (n / 16))]
        exact ih (n / 16) hdiv hq

/-! ## Branch facts about the byte-size formatter -/

lemma TB_eq : TB = 2 ^ 40 := by decide

lemma prettyFormatU64_tb {n : Nat} (h : TB ≤ n) :
    prettyFormatU64 n = fmtOneDecimal n TB ++ " TB" := by
  rw [prettyFormatU64, if_pos h]

lemma prettyFormatU64_gb {n : Nat} (h1 : GB ≤ n) (h2 : n < TB) :
    prettyFormatU64 n = fmtOneDecimal n GB ++ " GB" := by
  rw [prettyFormatU64, if_neg (by omega), if_pos h1]

lemma prettyFormatU64_mb {n : Nat} (h1 : MB ≤ n) (h2 : n < GB) :
    prettyFormatU64 n = fmtOneDecimal n MB ++ " MB" := by
  have hTB : n < TB := by
    have : GB ≤ TB := by decide
    omega
  rw [prettyFormatU64, if_neg (by omega), if_neg (by omega), if_pos h1]

lemma prettyFormatU64_kb {n : Nat} (h1 : KB ≤ n) (h2 : n < MB) :
    prettyFormatU64 n = fmtOneDecimal n KB ++ " KB" := by
  have hGB : n < GB := by
    have : MB ≤ GB := by decide
    omega
  have hTB : n < TB := by
    have : GB ≤ TB := by decide
    omega
  rw [prettyFormatU64, if_neg (by omega), if_neg (by omega), if_neg (by omega),
    if_pos h1]

lemma prettyFormatU64_b {n : Nat} (h : n < KB) :
    prettyFormatU64 n = Nat.repr n ++ " B" := by
  have hMB : n < MB := by
    have : KB ≤ MB := by decide
    omega
  have hGB : n < GB := by
    have : MB ≤ GB := by decide
    omega
  have hTB : n < TB := by
    have : GB ≤ TB := by decide
    omega
  rw [prettyFormatU64, if_neg (by omega), if_neg (by omega), if_neg (by omega),
    if_neg (by omega)]

/-- Below the TB threshold the formatter's output never carries the
`" TB"` suffix: every other branch ends in a different two-character
tail. -/
lemma prettyFormatU64_no_tb {n : Nat} (h : n < TB) (x : String) :
    prettyFormatU64 n ≠ x ++ " TB" := by
  rcases Nat.lt_or_ge n KB with hb | hkb
  · rw [prettyFormatU64_b hb]
    exact append_ne_of_suffix_ne _ _ _ _ (by decide) (by decide) (by decide)
  rcases Nat.lt_or_ge n MB with hk | hmb
  · rw [prettyFormatU64_kb hkb hk]
    exact append_ne_of_suffix_ne _ _ _ _ (by decide) (by decide) (by decide)
  rcases Nat.lt_or_ge n GB with hm | hgb
  · rw [prettyFormatU64_mb hmb hm]
    exact append_ne_of_suffix_ne _ _ _ _ (by decide) (by decide) (by decide)
  · rw [prettyFormatU64_gb hgb h]
    exact append_ne_of_suffix_ne _ _ _ _ (by decide) (by decide) (by decide)

/-! ## Claims -/

/-- Claim C1: the byte-size formatter evaluates thresholds
largest-first — `" TB"` for `n ≥ 2^40`, `" GB"` for `2^30 ≤ n < 2^40`,
`" MB"` for `2^20 ≤ n < 2^30`, `" KB"` for `2^10 ≤ n < 2^20`, and the
raw integer with `" B"` for `n < 1024` — where the numeric part is the
one-decimal rendering of the quotient; in particular `1023 ↦ "1023 B"`,
`1024 ↦ "1.0 KB"`, `1048576 ↦ "1.0 MB"`,
`1099511627776 ↦ "1.0 TB"`. -/
theorem claim_C1_byte_formatter (n : Nat) :
    (2 ^ 40 ≤ n → prettyFormatU64 n = fmtOneDecimal n (2 ^ 40) ++ " TB") ∧
    (2 ^ 30 ≤ n → n < 2 ^ 40 →
      prettyFormatU64 n = fmtOneDecimal n (2 ^ 30) ++ " GB") ∧
    (2 ^ 20 ≤ n → n < 2 ^ 30 →
      prettyFormatU64 n = fmtOneDecimal n (2 ^ 20) ++ " MB") ∧
    (2 ^ 10 ≤ n → n < 2 ^ 20 →
      prettyFormatU64 n = fmtOneDecimal n (2 ^ 10) ++ " KB") ∧
    (n < 1024 → prettyFormatU64 n = Nat.repr n ++ " B") ∧
    prettyFormatU64 1023 = "1023 B" ∧
    prettyFormatU64 1024 = "1.0 KB" ∧
    prettyFormatU64 1048576 = "1.0 MB" ∧
    prettyFormatU64 1099511627776 = "1.0 TB" := by
  refine ⟨?_, ?_, ?_, ?_, ?_, by decide, by decide, by decide, by decide⟩
  · intro h
    have : TB ≤ n := by rw [TB_eq]; exact h
    simpa [TB_eq] using prettyFormatU64_tb this
  · intro h1 h2
    have e1 : GB = 2 ^ 30 := by decide
    rw [show (2 : Nat) ^ 30 = GB from by decide] at h1 ⊢
    rw [show (2 : Nat) ^ 40 = TB from by decide] at h2
    exact prettyFormatU64_gb h1 h2
  · intro h1 h2
    rw [show (2 : Nat) ^ 20 = MB from by decide] at h1 ⊢
    rw [show (2 : Nat) ^ 30 = GB from by decide] at h2
    exact prettyFormatU64_mb h1 h2
  · intro h1 h2
    rw [show (2 : Nat) ^ 10 = KB from by decide] at h1 ⊢
    rw [show (2 : Nat) ^ 20 = MB from by decide] at h2
    exact prettyFormatU64_kb h1 h2
  · intro h
    exact prettyFormatU64_b (by rw [show KB = 1024 from rfl]; omega)

theorem claim_C1_witness :
    prettyFormatU64 1024 = fmtOneDecimal 1024 (2 ^ 10) ++ " KB" :=
  (claim_C1_byte_formatter 1024).2.2.2.1 (by norm_num) (by norm_num)

/-- Claim C10: the `u32` formatter delegates to the `u64` formatter
by widening, so they agree on every `u32` value; for inputs below
`2^32` the `" TB"` branch is unreachable, while the GB, MB, KB and B
forms are all reached by `u32` inputs. -/
theorem claim_C10_u32_delegation (n : Nat) (h : n < 2 ^ 32) :
    prettyFormatU32 n = prettyFormatU64 n ∧
    (∀ x, prettyFormatU64 n ≠ x ++ " TB") ∧
    prettyFormatU32 1073741824 = "1.0" ++ " GB" ∧
    prettyFormatU32 1048576 = "1.0" ++ " MB" ∧
    prettyFormatU32 1024 = "1.0" ++ " KB" ∧
    prettyFormatU32 0 = "0" ++ " B" := by
  refine ⟨rfl, ?_, by decide, by decide, by decide, by decide⟩
  intro x
  exact prettyFormatU64_no_tb (by rw [TB_eq]; omega) x

theorem claim_C10_witness :
    prettyFormatU32 1024 = prettyFormatU64 1024 :=
  (claim_C10_u32_delegation 1024 (by norm_num)).1

/-- Claim C2: the vendor-code resolver maps `0x1002 ↦ "AMD"`,
`0x10DE ↦ "NVIDIA"`, `0x8086 ↦ "Intel"`, `0x13B5 ↦ "ARM"`,
`0x5143 ↦ "Qualcomm"`, `0x1010 ↦ "ImgTec"`, and any other value to
`"Unknown (0x{ID})"` with the ID in uppercase hexadecimal with no
leading zeros (the hex digits read back to the ID, are drawn from the
uppercase alphabet, and the first digit is nonzero for a nonzero ID);
it is total, and `resolver 0xFFFF = "Unknown (0xFFFF)"`. -/
theorem claim_C2_vendor_resolver (v : Nat)
    (hv : v ∉ ([0x1002, 0x10DE, 0x8086, 0x13B5, 0x5143, 0x1010] : List Nat)) :
    vendor_to_string 0x1002 = "AMD" ∧
    vendor_to_string 0x10DE = "NVIDIA" ∧
    vendor_to_string 0x8086 = "Intel" ∧
    vendor_to_string 0x13B5 = "ARM" ∧
    vendor_to_string 0x5143 = "Qualcomm" ∧
    vendor_to_string 0x1010 = "ImgTec" ∧
    vendor_to_string v = "Unknown (0x" ++ toHexUpper v ++ ")" ∧
    hexVal (toHexUpper v).data = v ∧
    (∀ c ∈ (toHexUpper v).data, c ∈ hexAlphabet) ∧
    (v ≠ 0 → (toHexUpper v).data.head? ≠ some '0') ∧
    vendor_to_string 0xFFFF = "Unknown (0xFFFF)" := by
  simp only [List.mem_cons, List.not_mem_nil, or_false, not_or] at hv
  obtain ⟨h1, h2, h3, h4, h5, h6⟩ := hv
  refine ⟨by decide, by decide, by decide, by decide, by decide, by decide,
    ?_, hexVal_hexChars v, hexChars_mem_alphabet v,
    fun hz => hexChars_head_ne_zero v hz, ?_⟩
  · unfold vendor_to_string
    rw [if_neg h1, if_neg h2, if_neg h3, if_neg h4, if_neg h5, if_neg h6]
  · have h : hexChars 0xFFFF = ['F', 'F', 'F', 'F'] := by
      simp [hexChars]
      decide
    unfold vendor_to_string
    rw [if_neg (by norm_num), if_neg (by norm_num), if_neg (by norm_num),
      if_neg (by norm_num), if_neg (by norm_num), if_neg (by norm_num)]
    show "Unknown (0x" ++ (⟨hexChars 0xFFFF⟩ : String) ++ ")" = _
    rw [h]
    decide

theorem claim_C2_witness :
    vendor_to_string 0xFFFF = "Unknown (0x" ++ toHexUpper 0xFFFF ++ ")" :=
  (claim_C2_vendor_resolver 0xFFFF (by decide)).2.2.2.2.2.2.1

/-- The byte-size formatter never agrees with the `"{n} bytes"` suffix
form: every formatter branch ends in a two-character tail (`" TB"`,
`" GB"`, `" MB"`, `" KB"`, `" B"`) different from `"es"`. -/
lemma bytes_suffix_ne_prettyFormat (n : Nat) :
    Nat.repr n ++ " bytes" ≠ prettyFormatU32 n := by
  show Nat.repr n ++ " bytes" ≠ prettyFormatU64 n
  rcases Nat.lt_or_ge n KB with hb | hkb
  · rw [prettyFormatU64_b hb]
    exact append_ne_of_suffix_ne _ _ _ _ (by decide) (by decide) (by decide)
  rcases Nat.lt_or_ge n MB with hk | hmb
  · rw [prettyFormatU64_kb hkb hk]
    exact append_ne_of_suffix_ne _ _ _ _ (by decide) (by decide) (by decide)
  rcases Nat.lt_or_ge n GB with hm | hgb
  · rw [prettyFormatU64_mb hmb hm]
    exact append_ne_of_suffix_ne _ _ _ _ (by decide) (by decide) (by decide)
  rcases Nat.lt_or_ge n TB with hg | htb
  · rw [prettyFormatU64_gb hgb hg]
    exact append_ne_of_suffix_ne _ _ _ _ (by decide) (by decide) (by decide)
  · rw [prettyFormatU64_tb htb]
    exact append_ne_of_suffix_ne _ _ _ _ (by decide) (by decide) (by decide)

/-- Claim C3: the markdown renderer emits the push-constant size in
the `"{n} bytes"` suffix form while the table renderer passes the same
field through the byte-size formatter (the two value strings are never
equal), and the two renderers agree on the value formatting of every
other byte-valued, alignment and stride field. -/
theorem claim_C3_push_constant_divergence (info : AdapterInfo) (L : Limits) :
    rowValue (sectionRows (markdownSections L)) "Max Push Constant Size" =
      some (Nat.repr L.max_push_constant_size ++ " bytes") ∧
    rowValue (sectionRows (tableSections info L)) "Max Push Constant Size:" =
      some (prettyFormatU32 L.max_push_constant_size) ∧
    Nat.repr L.max_push_constant_size ++ " bytes" ≠
      prettyFormatU32 L.max_push_constant_size ∧
    rowValue (sectionRows (markdownSections L)) "Max Uniform Buffer Size" =
      rowValue (sectionRows (tableSections info L)) "Max Uniform Buffer Size:" ∧
    rowValue (sectionRows (markdownSections L)) "Max Storage Buffer Size" =
      rowValue (sectionRows (tableSections info L)) "Max Storage Buffer Size:" ∧
    rowValue (sectionRows (markdownSections L)) "Min Uniform Alignment" =
      rowValue (sectionRows (tableSections info L)) "Min Uniform Alignment:" ∧
    rowValue (sectionRows (markdownSections L)) "Min Storage Alignment" =
      rowValue (sectionRows (tableSections info L)) "Min Storage Alignment:" ∧
    rowValue (sectionRows (markdownSections L)) "Max Vertex Stride" =
      rowValue (sectionRows (tableSections info L)) "Max Vertex Stride:" ∧
    rowValue (sectionRows (markdownSections L)) "Max Workgroup Storage" =
      rowValue (sectionRows (tableSections info L)) "Max Workgroup Storage:" :=
  ⟨rfl, rfl, bytes_suffix_ne_prettyFormat L.max_push_constant_size,
   rfl, rfl, rfl, rfl, rfl, rfl⟩

theorem claim_C3_witness :
    rowValue (sectionRows (markdownSections mockLimits))
      "Max Push Constant Size" =
      some (Nat.repr mockLimits.max_push_constant_size ++ " bytes") :=
  (claim_C3_push_constant_divergence mockInfo mockLimits).1

/-- Claim C4: every key of the spec's section-6 table appears exactly
once in the rendered output of each format — as the row key (with the
renderer's trailing colon) in the table output, as the row key in the
markdown output, and as the record's serialized member name in the
JSON output. -/
theorem claim_C4_each_key_once (info : AdapterInfo) (L : Limits) :
    ∀ k ∈ spec6Keys,
      countKey (tableKeys info L) (k ++ ":") = 1 ∧
      countKey (markdownKeys info L) k = 1 ∧
      countKey (jsonLeafKeys info L) (jsonKeyFor k) = 1 := by
  have h1 : tableKeys info L = tableKeys mockInfo mockLimits := rfl
  have h2 : markdownKeys info L = markdownKeys mockInfo mockLimits := rfl
  have h3 : jsonLeafKeys info L = jsonLeafKeys mockInfo mockLimits := rfl
  rw [h1, h2, h3]
  decide

theorem claim_C4_witness :
    countKey (tableKeys mockInfo mockLimits) ("Name" ++ ":") = 1 ∧
    countKey (markdownKeys mockInfo mockLimits) "Name" = 1 ∧
    countKey (jsonLeafKeys mockInfo mockLimits) (jsonKeyFor "Name") = 1 :=
  claim_C4_each_key_once mockInfo mockLimits "Name" (by decide)

/-- Claim C5: the JSON renderer's output is a single object whose
top-level members are `adapter_info`, `limits` and `notes`, where
`notes` is omitted entirely when absent (as it always is: `main`
passes `None`) and is never emitted as `null`. -/
theorem claim_C5_json_top_level (info : AdapterInfo) (L : Limits) :
    (gpuReportToJson info L none).keys = ["adapter_info", "limits"] ∧
    (∀ v, ("notes", v) ∉ (gpuReportToJson info L none).members) ∧
    (∀ m ∈ (gpuReportToJson info L none).members, m.2 ≠ Json.nul) ∧
    (∀ s, (gpuReportToJson info L (some s)).keys =
      ["adapter_info", "limits", "notes"]) ∧
    renderReport .json info L = (gpuReportToJson info L none).render ++ "\n" := by
  refine ⟨rfl, ?_, ?_, fun s => rfl, rfl⟩
  · intro v hv
    simp only [gpuReportToJson, Json.members, List.append_nil, List.mem_cons,
      List.not_mem_nil, or_false, Prod.mk.injEq] at hv
    rcases hv with ⟨h, _⟩ | ⟨h, _⟩ <;> simp at h
  · intro m hm
    simp only [gpuReportToJson, Json.members, List.append_nil, List.mem_cons,
      List.not_mem_nil, or_false] at hm
    rcases hm with h | h <;> subst h <;> simp [adapterInfoToJson, limitsToJson]

theorem claim_C5_witness :
    (gpuReportToJson mockInfo mockLimits none).keys =
      ["adapter_info", "limits"] :=
  (claim_C5_json_top_level mockInfo mockLimits).1

/-- Claim C6: the JSON renderer serializes the vendor field as its raw
number (never as the resolver's display string), e.g. `0x1002 ↦ 4098`,
while the table and markdown renderers render the Vendor row through
the vendor-code resolver. -/
theorem claim_C6_vendor_raw_in_json (info : AdapterInfo) (L : Limits) :
    rowValue (adapterInfoToJson info).members "vendor" =
      some (Json.num info.vendor) ∧
    (∀ s, Json.num info.vendor ≠ Json.str s) ∧
    rowValue (sectionRows (tableSections info L)) "Vendor:" =
      some (vendor_to_string info.vendor) ∧
    rowValue (markdownAdapterRows info) "Vendor" =
      some (vendor_to_string info.vendor) ∧
    rowValue (adapterInfoToJson
      { info with vendor := 0x1002 }).members "vendor" =
      some (Json.num 4098) := by
  refine ⟨rfl, ?_, rfl, rfl, rfl⟩
  intro s h
  exact Json.noConfusion h

theorem claim_C6_witness :
    rowValue (adapterInfoToJson mockInfo).members "vendor" =
      some (Json.num mockInfo.vendor) :=
  (claim_C6_vendor_raw_in_json mockInfo mockLimits).1

/-- Claim C7: the table and markdown renderers are pure functions of
the two input records — identical records produce byte-identical
output (color codes stripped for the table renderer, as modelled). -/
theorem claim_C7_renderers_pure (i1 i2 : AdapterInfo) (l1 l2 : Limits)
    (hi : i1 = i2) (hl : l1 = l2) :
    print_table_output i1 l1 = print_table_output i2 l2 ∧
    print_markdown_output i1 l1 = print_markdown_output i2 l2 := by
  subst hi
  subst hl
  exact ⟨rfl, rfl⟩

theorem claim_C7_witness :
    print_table_output mockInfo mockLimits =
      print_table_output mockInfo mockLimits ∧
    print_markdown_output mockInfo mockLimits =
      print_markdown_output mockInfo mockLimits :=
  claim_C7_renderers_pure mockInfo mockInfo mockLimits mockLimits rfl rfl

/-- Claim C8: the table renderer emits the title line and then exactly
eight section headers, in order `Adapter Information`, `Texture
Limits`, `Binding Limits`, `Resource Limits`, `Buffer Limits`, `Vertex
Limits`, `Compute Limits`, `Miscellaneous Limits`, each followed by
its rows; every row's key is padded with spaces to the fixed column
width `MAX_KEY_LEN = 30` before the value, and every key fits in that
width. -/
theorem claim_C8_table_structure (info : AdapterInfo) (L : Limits) :
    (tableSections info L).map Prod.fst =
      ["Adapter Information", "Texture Limits", "Binding Limits",
       "Resource Limits", "Buffer Limits", "Vertex Limits",
       "Compute Limits", "Miscellaneous Limits"] ∧
    print_table_output info L =
      "WGPU Adapter Info & Device Limits\n" ++
      String.join ((tableSections info L).map fun s =>
        "\n" ++ s.1 ++ "\n" ++
        String.join (s.2.map fun r => print_row r.1 r.2)) ∧
    (∀ k v : String, print_row k v =
      k ++ (⟨List.replicate (30 - k.length) ' '⟩ : String) ++
        " " ++ v ++ "\n") ∧
    MAX_KEY_LEN = 30 ∧
    (∀ k ∈ tableKeys info L, k.length ≤ 30) := by
  refine ⟨rfl, rfl, fun k v => rfl, rfl, ?_⟩
  have h : tableKeys info L = tableKeys mockInfo mockLimits := rfl
  rw [h]
  decide

theorem claim_C8_witness :
    (tableSections mockInfo mockLimits).map Prod.fst =
      ["Adapter Information", "Texture Limits", "Binding Limits",
       "Resource Limits", "Buffer Limits", "Vertex Limits",
       "Compute Limits", "Miscellaneous Limits"] :=
  (claim_C8_table_structure mockInfo mockLimits).1

/-- Claim C9: adapter acquisition happens exactly once per run with no
retries; on failure the program exits non-zero with a printed error
message and no report output, and on success it exits with code 0
after printing the full report. -/
theorem claim_C9_exit_behaviour (fmt : OutputFormat)
    (acq : Except String (AdapterInfo × Limits)) :
    (runMain fmt acq).attempts = 1 ∧
    (∀ e, acq = .error e →
      (runMain fmt acq).exitCode ≠ 0 ∧
      (runMain fmt acq).stdout = "" ∧
      (runMain fmt acq).errMsg = some ("Error: " ++ e)) ∧
    (∀ r, acq = .ok r →
      (runMain fmt acq).exitCode = 0 ∧
      (runMain fmt acq).stdout = renderReport fmt r.1 r.2 ∧
      (runMain fmt acq).errMsg = none) := by
  refine ⟨?_, ?_, ?_⟩
  · cases acq with
    | error e => rfl
    | ok r => rcases r with ⟨i, l⟩; rfl
  · rintro e rfl
    exact ⟨one_ne_zero, rfl, rfl⟩
  · rintro ⟨i, l⟩ rfl
    exact ⟨rfl, rfl, rfl⟩

theorem claim_C9_witness :
    (runMain .table (.error "no adapter")).exitCode ≠ 0 ∧
    (runMain .table (.error "no adapter")).stdout = "" ∧
    (runMain .table (.error "no adapter")).errMsg =
      some ("Error: " ++ "no adapter") :=
  (claim_C9_exit_behaviour .table (.error "no adapter")).2.1 "no adapter" rfl

end Wgpucheck
